import Mathlib

/-!
Verification of the claim cross-reference and confidence-fusion core of the
fake-news-detection backend (`backend/app`).

Python strings are embedded as `List Char` (`PyStr`): every relevant string
operation of the source (`lower`, `strip`, `split`, `in`, slicing, `len`) is
translated to the corresponding list operation, so that all definitions stay
computable and concrete runs can be checked by the kernel.  Python floats are
embedded as `ℚ` wherever the source only performs field arithmetic and
comparisons, and as `ℝ` for the fusion step, whose source uses `math.log` and
`math.exp`.
-/

/-- A Python string, embedded as its list of characters. -/
abbrev PyStr := List Char

/-- Coerce a Lean string literal to the `PyStr` embedding. -/
def pys (s : String) : PyStr := s.toList

/-- Python `str.lower()`. -/
def pyLower (s : PyStr) : PyStr := s.map Char.toLower

/-- Python `str.strip()`: drop leading and trailing whitespace. -/
def pyStrip (s : PyStr) : PyStr :=
  ((s.dropWhile Char.isWhitespace).reverse.dropWhile Char.isWhitespace).reverse

/-- Python `str.split()` (no argument): split on whitespace runs, no empty parts. -/
def pySplitWs (s : PyStr) : List PyStr :=
  (s.splitOnP Char.isWhitespace).filter (fun w => w ≠ [])

/-- Python `needle in hay` for strings: substring containment. -/
def pyContains (hay needle : PyStr) : Bool :=
  match hay with
  | [] => needle.isEmpty
  | _ :: t => needle.isPrefixOf hay || pyContains t needle

/-!
## Rating Normalizer
`GoogleFactCheckClient._rating_to_score` (google_factcheck_client.py, lines 239-286).
The rating table is kept in the definition (insertion) order of the source.
-/

/-- The `rating_map` dict of `_rating_to_score`, in definition order. -/
def rating_map : List (PyStr × ℚ) :=
  [ (pys "true", 0.95)
  , (pys "correct", 0.95)
  , (pys "accurate", 0.95)
  , (pys "mostly true", 0.75)
  , (pys "mostly correct", 0.75)
  , (pys "half true", 0.5)
  , (pys "mixture", 0.5)
  , (pys "mixed", 0.5)
  , (pys "unproven", 0.4)
  , (pys "undetermined", 0.4)
  , (pys "mostly false", 0.25)
  , (pys "mostly incorrect", 0.25)
  , (pys "false", 0.05)
  , (pys "incorrect", 0.05)
  , (pys "pants on fire", 0.0)
  , (pys "pants-fire", 0.0)
  , (pys "legend", 0.05)
  , (pys "outdated", 0.3)
  , (pys "misleading", 0.2) ]

/-- Embeds `GoogleFactCheckClient._rating_to_score`: lower-case and strip, exact dict
lookup first, then first substring match in table order, else `0.5`. -/
def rating_to_score (rating : PyStr) : ℚ :=
  let r := pyStrip (pyLower rating)
  match rating_map.lookup r with
  | some v => v
  | none =>
    match rating_map.find? (fun kv => pyContains r kv.1) with
    | some kv => kv.2
    | none => 0.5

/-!
## Similarity Scorer
`CrossReferenceAdapter._compute_similarity` and `_fuzzy_ratio`
(google_factcheck_client.py, lines 379-438).
-/

/-- The word set `set(t.split())` of a normalized text. -/
def wordSet (t : PyStr) : Finset PyStr := (pySplitWs t).toFinset

/-- Word-level Jaccard similarity (`intersection / union if union > 0 else 0.0`). -/
def jaccardWords (t1 t2 : PyStr) : ℚ :=
  let w1 := wordSet t1
  let w2 := wordSet t2
  let inter := (w1 ∩ w2).card
  let uni := (w1 ∪ w2).card
  if 0 < uni then (inter : ℚ) / (uni : ℚ) else 0

/-- The list of overlapping character bigrams `s[i:i+2]` of a text. -/
def bigramList : PyStr → List (Char × Char)
  | a :: b :: rest => (a, b) :: bigramList (b :: rest)
  | _ => []

/-- Embeds `set(s[i:i+2] for i in range(len(s)-1))`. -/
def bigramSet (s : PyStr) : Finset (Char × Char) := (bigramList s).toFinset

/-- Embeds `CrossReferenceAdapter._fuzzy_ratio`: Jaccard similarity of the bigram
sets, `0.0` when either bigram set is empty. -/
def bigram_fuzzy (s1 s2 : PyStr) : ℚ :=
  let bg1 := bigramSet s1
  let bg2 := bigramSet s2
  if bg1 = ∅ ∨ bg2 = ∅ then 0
  else
    let inter := (bg1 ∩ bg2).card
    let uni := (bg1 ∪ bg2).card
    if 0 < uni then (inter : ℚ) / (uni : ℚ) else 0

/-- Python `min(t1, t2, key=len)`: the first argument wins ties. -/
def pyMinByLen (t1 t2 : PyStr) : PyStr := if t2.length < t1.length then t2 else t1

/-- Python `max(t1, t2, key=len)`: the first argument wins ties. -/
def pyMaxByLen (t1 t2 : PyStr) : PyStr := if t1.length < t2.length then t2 else t1

/-- The substring-bonus term of `_compute_similarity`:
`0.2` when `len(shorter) > 20 and shorter in longer`, else `0.0`. -/
def substringBonus (t1 t2 : PyStr) : ℚ :=
  let shorter := pyMinByLen t1 t2
  let longer := pyMaxByLen t1 t2
  if 20 < shorter.length ∧ pyContains longer shorter then 0.2 else 0

/-- Embeds `CrossReferenceAdapter._compute_similarity`: `0.0` when either input is
empty, otherwise `min(0.6*jaccard + 0.3*fuzzy + substring_bonus, 1.0)` over the
lower-cased, stripped texts. -/
def compute_similarity (text1 text2 : PyStr) : ℚ :=
  if text1 = [] ∨ text2 = [] then 0
  else
    let t1 := pyStrip (pyLower text1)
    let t2 := pyStrip (pyLower text2)
    min (0.6 * jaccardWords t1 t2 + 0.3 * bigram_fuzzy t1 t2 + substringBonus t1 t2) 1

/-!
## Stance Classifier
`CrossReferenceAdapter._score_to_stance` (google_factcheck_client.py, lines 440-455).
-/

/-- Embeds `_score_to_stance`: `>= 0.7` supports, `<= 0.3` refutes, else mixed. -/
def score_to_stance (truth_score : ℚ) : PyStr :=
  if (0.7 : ℚ) ≤ truth_score then pys "supports"
  else if truth_score ≤ (0.3 : ℚ) then pys "refutes"
  else pys "mixed"

/-!
## Google Fact Check client and adapter
`GoogleFactCheckClient.search` / `_parse_claim` and
`CrossReferenceAdapter.cross_reference_claim` (google_factcheck_client.py).
-/

/-- One `claimReview` record of the Google Fact Check API response. -/
structure ClaimReview where
  publisherName : PyStr
  publisherSite : PyStr
  url : PyStr
  textualRating : PyStr
  reviewDate : PyStr
deriving DecidableEq

/-- One claim record of the Google Fact Check API response. -/
structure RawClaim where
  text : PyStr
  claimReviewList : List ClaimReview
  claimantName : PyStr
deriving DecidableEq

/-- A parsed fact-check result as built by `GoogleFactCheckClient._parse_claim`. -/
structure FactCheckResult where
  statement : PyStr
  truth_rating : PyStr
  truth_score : ℚ
  publisher : PyStr
  publisher_site : PyStr
  source_url : PyStr
  snippet : PyStr
  publish_date : PyStr
  claimant : PyStr
deriving DecidableEq

/-- Embeds `GoogleFactCheckClient._parse_claim`: `None` when the claim has no review,
otherwise a result built from the first review, with the textual rating
lower-cased and normalized via `_rating_to_score`. -/
def parse_claim (c : RawClaim) : Option FactCheckResult :=
  match c.claimReviewList with
  | [] => none
  | review :: _ =>
    let rating_text := pyLower review.textualRating
    some { statement := c.text
         , truth_rating := rating_text
         , truth_score := rating_to_score rating_text
         , publisher := review.publisherName
         , publisher_site := review.publisherSite
         , source_url := review.url
         , snippet := c.text.take 300
         , publish_date := review.reviewDate.take 10
         , claimant := c.claimantName }

/-- Outcome of the HTTP request performed by `GoogleFactCheckClient.search`:
either a parsed JSON body, or a `requests.RequestException` (network failure
or a non-2xx status raised by `raise_for_status`), or some other exception
while parsing the response. -/
inductive SearchOutcome where
  | success (claims : List RawClaim)
  | requestError
  | parseFailure
deriving DecidableEq

/-- Embeds `GoogleFactCheckClient.search`, with the cache lookup and the HTTP outcome
made explicit parameters: a cache hit short-circuits to the cached results;
otherwise both `except` branches return the empty list, and a successful
response is parsed claim by claim.  The function is total: the source catches
every exception. -/
def gfc_search (cached : Option (List FactCheckResult)) (outcome : SearchOutcome)
    (limit : ℕ) : List FactCheckResult :=
  match cached with
  | some results => results.take limit
  | none =>
    match outcome with
    | SearchOutcome.success cs => (cs.filterMap parse_claim).take limit
    | SearchOutcome.requestError => []
    | SearchOutcome.parseFailure => []

/-- The evidence record produced by both cross-reference adapters. -/
structure Evidence where
  type : PyStr
  source_name : PyStr
  source_url : PyStr
  stance : PyStr
  similarity : ℚ
  snippet : PyStr
  truth_meter : PyStr
  truth_meter_score : ℚ
deriving DecidableEq

/-- The loop body of `CrossReferenceAdapter.cross_reference_claim`
(google_factcheck_client.py): compute similarity, skip the candidate when it is
below `0.15`, otherwise build the evidence record. -/
def gfc_evidence_of_result (claim : PyStr) (r : FactCheckResult) : Option Evidence :=
  let similarity := compute_similarity claim r.statement
  if similarity < 0.15 then none
  else some { type := pys "fact_check"
            , source_name := r.publisher
            , source_url := r.source_url
            , stance := score_to_stance r.truth_score
            , similarity := similarity
            , snippet := r.snippet
            , truth_meter := r.truth_rating
            , truth_meter_score := r.truth_score }

/-- Insert an evidence item into a descending-sorted list, after all items of
greater or equal similarity (the later element stays behind equals). -/
def insertDescBySim (e : Evidence) : List Evidence → List Evidence
  | [] => [e]
  | x :: xs => if x.similarity < e.similarity then e :: x :: xs else x :: insertDescBySim e xs

/-- Python `list.sort(key=lambda x: x["similarity"], reverse=True)`: a stable
descending sort by similarity, realized as a stable insertion sort. -/
def sortDescBySim (l : List Evidence) : List Evidence :=
  l.foldl (fun acc e => insertDescBySim e acc) []

/-- Embeds `CrossReferenceAdapter.cross_reference_claim` of the Google adapter, with
the constructor-time API-key check (`self.client is None`), the cache lookup
and the HTTP outcome made explicit parameters.  `search` is called with
`limit=20`; evidence below similarity `0.15` is dropped, the rest is sorted by
similarity descending and truncated to `top_k`. -/
def gfc_cross_reference_claim (hasApiKey : Bool)
    (cached : Option (List FactCheckResult)) (outcome : SearchOutcome)
    (claim : PyStr) (top_k : ℕ) : List Evidence :=
  if !hasApiKey then []
  else
    let results := gfc_search cached outcome 20
    if results.isEmpty then []
    else (sortDescBySim (results.filterMap (gfc_evidence_of_result claim))).take top_k

/-!
## PolitiFact client and adapter
`politifact_client.py`.  This is the `CrossReferenceAdapter` actually imported
by `claims_client.py` (`from .politifact_client import CrossReferenceAdapter`).
-/

/-- A parsed PolitiFact statement as built by `PolitiFactClient._parse_statement`. -/
structure PFResult where
  statement : PyStr
  truth_meter : PyStr
  truth_meter_score : ℚ
  article_url : PyStr
  speaker : PyStr
  source_url : PyStr
  snippet : PyStr
  publish_date : PyStr
deriving DecidableEq

/-- Embeds the PolitiFact adapter method `_compute_similarity`: word-level Jaccard of the
lower-cased word sets, `0.0` when either set is empty, scaled by `1.5` and
capped at `1.0`. -/
def pf_compute_similarity (text1 text2 : PyStr) : ℚ :=
  let words1 := (pySplitWs (pyLower text1)).toFinset
  let words2 := (pySplitWs (pyLower text2)).toFinset
  if words1 = ∅ ∨ words2 = ∅ then 0
  else
    let inter := (words1 ∩ words2).card
    let uni := (words1 ∪ words2).card
    let similarity := if 0 < uni then (inter : ℚ) / (uni : ℚ) else 0
    min (similarity * 1.5) 1

/-- Embeds the PolitiFact adapter method `_convert_to_evidence_format`: inline stance
thresholds (`>= 0.7` supports, `<= 0.3` refutes, else mixed) and word-overlap
similarity; every result is converted, with no similarity floor. -/
def pf_convert_to_evidence_format (result : PFResult) (source_name : PyStr)
    (claim : PyStr) : Evidence :=
  let truth_score := result.truth_meter_score
  let stance :=
    if (0.7 : ℚ) ≤ truth_score then pys "supports"
    else if truth_score ≤ (0.3 : ℚ) then pys "refutes"
    else pys "mixed"
  let similarity := pf_compute_similarity claim result.statement
  { type := pys "fact_check"
  , source_name := source_name
  , source_url := result.source_url
  , stance := stance
  , similarity := similarity
  , snippet := result.snippet
  , truth_meter := result.truth_meter
  , truth_meter_score := result.truth_meter_score }

/-- Embeds the PolitiFact adapter method `cross_reference_claim`, with the results of
`PolitiFactClient.search` made an explicit parameter: every search result is
converted to evidence, sorted by similarity descending, truncated to `top_k`. -/
def pf_cross_reference_claim (searchResults : List PFResult) (claim : PyStr)
    (top_k : ℕ) : List Evidence :=
  let all_evidence :=
    searchResults.map (fun r => pf_convert_to_evidence_format r (pys "PolitiFact") claim)
  (sortDescBySim all_evidence).take top_k

/-!
## Result Cache
`ResultCache` (google_factcheck_client.py, lines 14-97).  Time is measured in
hours as a rational number; the `md5` hex digest of the lower-cased claim text
is modelled by the identity function on the lower-cased text, a deterministic,
collision-free stand-in for the digest.  The file system is a partial map from
storage keys to entries.
-/

/-- One cache file: the stored creation timestamp, the claim, the raw results. -/
structure CacheEntry where
  timestamp : ℚ
  claim : PyStr
  results : List FactCheckResult

/-- Embeds `ResultCache._get_cache_key`: a deterministic digest of the lower-cased
claim text (md5 hexdigest modelled as the identity on the lower-cased text). -/
def cache_key (claim : PyStr) : PyStr := pyLower claim

/-- The cache directory: a map from storage key to entry. -/
def CacheStore : Type := PyStr → Option CacheEntry

/-- The constructor default `ttl_hours: int = 168` (7 days). -/
def defaultTtlHours : ℚ := 168

/-- Embeds `ResultCache.get` at time `now`: a missing file is a miss; an entry with
`now - created > ttl` is expired, its file is unlinked (`cache_path.unlink()`)
and the call is a miss; otherwise the stored results are returned.  The store
is returned alongside to capture the deletion. -/
def cache_get (ttl : ℚ) (store : CacheStore) (now : ℚ) (claim : PyStr) :
    Option (List FactCheckResult) × CacheStore :=
  match store (cache_key claim) with
  | none => (none, store)
  | some entry =>
    if ttl < now - entry.timestamp then
      (none, fun k => if k = cache_key claim then none else store k)
    else
      (some entry.results, store)

/-- Embeds `ResultCache.set` at time `now`: write the entry under the key of the claim,
with `timestamp` set to `now`; no other file is touched. -/
def cache_set (store : CacheStore) (now : ℚ) (claim : PyStr)
    (results : List FactCheckResult) : CacheStore :=
  fun k => if k = cache_key claim then some { timestamp := now, claim := claim, results := results }
           else store k

/-!
## Aggregation
`extract_claims_and_evidence` (claims_client.py, lines 61-73): evidence is
attached per claim, and the aggregate `cross_reference` metric is the mean of
the similarity values collected by appending, claim by claim, the similarity
of every evidence item.
-/

/-- One claim record of the pipeline, carrying its attached evidence. -/
structure ClaimRec where
  text : PyStr
  start_char : Option ℕ
  end_char : Option ℕ
  evidences : List Evidence

/-- The `all_similarities` accumulator loop of `extract_claims_and_evidence`:
`for claim in claims: for ev in evidence: all_similarities.append(ev["similarity"])`. -/
def all_similarities (claims : List ClaimRec) : List ℚ :=
  claims.foldl (fun acc c => acc ++ c.evidences.map (fun e => e.similarity)) []

/-- The aggregate metric:
`sum(all_similarities) / len(all_similarities) if all_similarities else 0.0`. -/
def cross_reference_agg (claims : List ClaimRec) : ℚ :=
  let sims := all_similarities claims
  if sims.isEmpty then 0 else sims.sum / (sims.length : ℚ)

/-!
## Confidence Fusion and the analyze endpoint decision
`fusion.py` and `main.py` (lines 78-93).  The source works with Python floats
through `math.log` and `math.exp`; this is embedded over `ℝ`.  The default
weights `0.4 / 0.4 / 0.6` of `combine_confidence` are inlined, matching the
call in `main.py`, and the formatted explanation string is not modelled.
-/

/-- Embeds `fusion.logit`: clamp to `[eps, 1-eps]` with `eps = 1e-6`, then log-odds. -/
noncomputable def logit (p : ℝ) : ℝ :=
  let q := min (max p (1e-6 : ℝ)) (1 - (1e-6 : ℝ))
  Real.log (q / (1 - q))

/-- Embeds `fusion.sigmoid`. -/
noncomputable def sigmoid (z : ℝ) : ℝ := 1 / (1 + Real.exp (-z))

/-- Embeds `fusion.combine_confidence` at the default weights: normalize the weights
to sum to 1, pool the log-odds, map back through the logistic function. -/
noncomputable def combine_confidence (source_prior text_consistency cross_reference : ℝ) : ℝ :=
  let s : ℝ := 0.4 + 0.4 + 0.6
  sigmoid ((0.4 / s) * logit source_prior + (0.4 / s) * logit text_consistency
    + (0.6 / s) * logit cross_reference)

/-- The fusion decision of the `analyze` endpoint (main.py, lines 78-93):
when `cross_reference == 0.0` fusion is bypassed with the sentinel confidence
`-1.0` and the verdict "Insufficient data"; otherwise `combine_confidence`
runs and the verdict is derived by thresholds `0.7` and `0.45`. -/
noncomputable def analyze_verdict (source_prior text_consistency cross_reference : ℝ) :
    ℝ × PyStr :=
  if cross_reference = 0 then (-1, pys "Insufficient data")
  else
    let combined := combine_confidence source_prior text_consistency cross_reference
    let verdict :=
      if (0.7 : ℝ) ≤ combined then pys "Likely true"
      else if (0.45 : ℝ) ≤ combined then pys "Uncertain"
      else pys "Likely misleading"
    (combined, verdict)

/-!
## Spec-side and witness-input definitions
Definitions written from the words of the spec or of an amended claim (each
named `*_spec`), and concrete inputs used by witness runs.
-/

/-- Written from the spec: the similarity values of every evidence item across
all claims, claims in order, evidence in order. -/
def evidence_sims_spec (claims : List ClaimRec) : List ℚ :=
  ((claims.map ClaimRec.evidences).flatten).map (fun e => e.similarity)

/-- Written from the spec: the plain arithmetic mean of a list of scores,
`0.0` for the empty list. -/
def plain_mean_spec (xs : List ℚ) : ℚ :=
  if xs = [] then 0 else xs.sum / (xs.length : ℚ)

/-- A PolitiFact search result whose statement shares no word with the claim
"aaa", so its computed similarity is `0.0`. -/
def pfBelowFloorResult : PFResult :=
  { statement := pys "zzz", truth_meter := pys "false", truth_meter_score := 0.05
  , article_url := [], speaker := [], source_url := [], snippet := []
  , publish_date := [] }

/-- The claim text used by the C3 witness: one 21-character word. -/
def c3WitnessClaim : PyStr := pys "aaaaaaaaaaaaaaaaaaaaa"

/-- A cached fact-check result whose statement equals the C3 witness claim. -/
def c3WitnessResult : FactCheckResult :=
  { statement := pys "aaaaaaaaaaaaaaaaaaaaa", truth_rating := pys "true"
  , truth_score := 0.95, publisher := pys "PolitiFact", publisher_site := []
  , source_url := [], snippet := [], publish_date := [], claimant := [] }

/-- The evidence item the Google adapter produces in the C3 witness run. -/
def c3WitnessEvidence : Evidence :=
  { type := pys "fact_check", source_name := pys "PolitiFact"
  , source_url := [], stance := pys "supports", similarity := 1, snippet := []
  , truth_meter := pys "true", truth_meter_score := 0.95 }

/-- Written from the amended spec: the first exact match in table order. -/
def exact_match_spec : List (PyStr × ℚ) → PyStr → Option ℚ
  | [], _ => none
  | (k, v) :: rest, r => if r = k then some v else exact_match_spec rest r

/-- Written from the amended spec: the value of the first table entry, in
table-definition order, whose key occurs as a substring of the rating. -/
def substring_match_spec : List (PyStr × ℚ) → PyStr → Option ℚ
  | [], _ => none
  | (k, v) :: rest, r => if pyContains r k then some v else substring_match_spec rest r

/-- Written from the amended spec: the canonical rating table, with
`legend = 0.05` and the two literal keys "pants on fire" and "pants-fire". -/
def rating_table_spec : List (PyStr × ℚ) :=
  [ (pys "true", 0.95)
  , (pys "correct", 0.95)
  , (pys "accurate", 0.95)
  , (pys "mostly true", 0.75)
  , (pys "mostly correct", 0.75)
  , (pys "half true", 0.5)
  , (pys "mixture", 0.5)
  , (pys "mixed", 0.5)
  , (pys "unproven", 0.4)
  , (pys "undetermined", 0.4)
  , (pys "mostly false", 0.25)
  , (pys "mostly incorrect", 0.25)
  , (pys "false", 0.05)
  , (pys "incorrect", 0.05)
  , (pys "pants on fire", 0.0)
  , (pys "pants-fire", 0.0)
  , (pys "legend", 0.05)
  , (pys "outdated", 0.3)
  , (pys "misleading", 0.2) ]

/-- Written from the amended spec: lower-case and trim, exact table match
first, then the first substring match in table order, else `0.5`. -/
def normalize_rating_spec (rating : PyStr) : ℚ :=
  let r := pyStrip (pyLower rating)
  match exact_match_spec rating_table_spec r with
  | some v => v
  | none => (substring_match_spec rating_table_spec r).getD 0.5

/-- Written from C5 as stated: the bonus is `0.2` exactly when the shorter
string by character length exceeds 20 characters and is a literal substring
of the longer one. -/
def claimed_bonus_spec (t1 t2 : PyStr) : ℚ :=
  if t1.length ≤ t2.length then
    (if 20 < t1.length ∧ pyContains t2 t1 then 0.2 else 0)
  else
    (if 20 < t2.length ∧ pyContains t1 t2 then 0.2 else 0)

/-- Written from C5 as stated: the full claimed similarity formula. -/
def claimed_similarity_spec (text1 text2 : PyStr) : ℚ :=
  if text1 = [] ∨ text2 = [] then 0
  else
    let t1 := pyStrip (pyLower text1)
    let t2 := pyStrip (pyLower text2)
    min (0.6 * jaccardWords t1 t2 + 0.3 * bigram_fuzzy t1 t2 + claimed_bonus_spec t1 t2) 1

/-- Written from the amended spec: on a length tie both `min(..., key=len)`
and `max(..., key=len)` return the first argument, so the containment test
compares the first normalized string with itself and the bonus only requires
length greater than 20; with distinct lengths the genuinely shorter string
must exceed 20 characters and be contained in the longer. -/
def amended_bonus_spec (t1 t2 : PyStr) : ℚ :=
  if t1.length = t2.length then (if 20 < t1.length then 0.2 else 0)
  else if t1.length < t2.length then (if 20 < t1.length ∧ pyContains t2 t1 then 0.2 else 0)
  else (if 20 < t2.length ∧ pyContains t1 t2 then 0.2 else 0)

/-- Written from the amended spec: the full amended similarity formula. -/
def amended_similarity_spec (text1 text2 : PyStr) : ℚ :=
  if text1 = [] ∨ text2 = [] then 0
  else
    let t1 := pyStrip (pyLower text1)
    let t2 := pyStrip (pyLower text2)
    min (0.6 * jaccardWords t1 t2 + 0.3 * bigram_fuzzy t1 t2 + amended_bonus_spec t1 t2) 1

/-!
## Helper lemmas
-/

/-- Membership in an insertion step of the stable descending sort. -/
theorem mem_insertDescBySim {a e : Evidence} {l : List Evidence} :
    a ∈ insertDescBySim e l ↔ a = e ∨ a ∈ l := by
  induction l with
  | nil => simp [insertDescBySim]
  | cons x xs ih =>
    by_cases h : x.similarity < e.similarity
    · simp [insertDescBySim, h]
    · simp [insertDescBySim, h, ih]
      tauto

/-- Membership in the accumulator form of the stable descending sort. -/
theorem mem_sortDescBySim_aux {a : Evidence} (l acc : List Evidence) :
    a ∈ l.foldl (fun acc e => insertDescBySim e acc) acc ↔ a ∈ acc ∨ a ∈ l := by
  induction l generalizing acc with
  | nil => simp
  | cons x xs ih =>
    simp only [List.foldl_cons, ih, mem_insertDescBySim, List.mem_cons]
    tauto

/-- The stable descending sort preserves membership. -/
theorem mem_sortDescBySim {a : Evidence} {l : List Evidence} :
    a ∈ sortDescBySim l ↔ a ∈ l := by
  simp [sortDescBySim, mem_sortDescBySim_aux]

/-!
## Spec-side definitions used by the refinement-style theorems
-/

/-- The accumulator loop of `all_similarities` is the flattened per-claim map. -/
theorem all_similarities_eq_spec (claims : List ClaimRec) :
    all_similarities claims = evidence_sims_spec claims := by
  have aux : ∀ (l : List ClaimRec) (a : List ℚ),
      l.foldl (fun acc c => acc ++ c.evidences.map (fun e => e.similarity)) a
        = a ++ evidence_sims_spec l := by
    intro l
    induction l with
    | nil => intro a; simp [evidence_sims_spec]
    | cons c t ih =>
      intro a
      simp only [List.foldl_cons, ih, evidence_sims_spec, List.map_cons,
        List.flatten_cons, List.map_append, List.append_assoc]
  simpa [all_similarities] using aux claims []

/-- C2: the aggregate `cross_reference` score equals the plain arithmetic mean
of the similarity values of every evidence item across all claims, and equals
exactly `0.0` when no claim carries any evidence. -/
theorem c2_cross_reference_is_plain_mean (claims : List ClaimRec) :
    cross_reference_agg claims = plain_mean_spec (evidence_sims_spec claims)
    ∧ ((∀ c ∈ claims, c.evidences = []) → cross_reference_agg claims = 0) := by
  have h := all_similarities_eq_spec claims
  constructor
  · simp only [cross_reference_agg, h, plain_mean_spec, List.isEmpty_iff]
  · intro hall
    have hnil : evidence_sims_spec claims = [] := by
      simp only [evidence_sims_spec, List.map_eq_nil_iff, List.flatten_eq_nil_iff]
      intro l hl
      rcases List.mem_map.mp hl with ⟨c, hc, rfl⟩
      exact hall c hc
    simp [cross_reference_agg, h, hnil]

/-- Witness for C2, at one claim with one evidence item and at one claim with
no evidence. -/
theorem c2_cross_reference_is_plain_mean_witness :
    cross_reference_agg
        [{ text := pys "a", start_char := none, end_char := none
         , evidences := [{ type := pys "fact_check", source_name := []
                         , source_url := [], stance := pys "mixed", similarity := 0.5
                         , snippet := [], truth_meter := [], truth_meter_score := 0.5 }] }]
      = plain_mean_spec (evidence_sims_spec
        [{ text := pys "a", start_char := none, end_char := none
         , evidences := [{ type := pys "fact_check", source_name := []
                         , source_url := [], stance := pys "mixed", similarity := 0.5
                         , snippet := [], truth_meter := [], truth_meter_score := 0.5 }] }])
    ∧ cross_reference_agg
        [{ text := pys "b", start_char := none, end_char := none, evidences := [] }] = 0 :=
  ⟨(c2_cross_reference_is_plain_mean _).1,
   (c2_cross_reference_is_plain_mean _).2 (by simp)⟩

/-- C1: when the aggregate cross-reference metric is exactly `0.0`, the
`analyze` endpoint bypasses fusion: the combined confidence is the sentinel
`-1.0` and the verdict is "Insufficient data", for all priors. -/
theorem c1_zero_crossref_bypasses_fusion
    (source_prior text_consistency cross_reference : ℝ)
    (h : cross_reference = 0) :
    analyze_verdict source_prior text_consistency cross_reference
      = (-1, pys "Insufficient data") := by
  subst h
  simp [analyze_verdict]

/-- Witness for C1 at `source_prior = 0.3`, `text_consistency = 0.9`. -/
theorem c1_zero_crossref_bypasses_fusion_witness :
    analyze_verdict 0.3 0.9 0 = (-1, pys "Insufficient data") :=
  c1_zero_crossref_bypasses_fusion 0.3 0.9 0 rfl

/-- C6: `cross_reference_claim` returns an empty evidence list (and, being a
total function, propagates no error) when no API key is configured, and
likewise when the cache misses and the HTTP request fails with a network error
or a non-2xx status; the PolitiFact adapter, whose `search` returns an empty
list on any request failure, likewise yields an empty evidence list then. -/
theorem c6_unreachable_or_unconfigured_empty (hasApiKey : Bool)
    (cached : Option (List FactCheckResult)) (outcome : SearchOutcome)
    (claim : PyStr) (top_k : ℕ) :
    (hasApiKey = false →
      gfc_cross_reference_claim hasApiKey cached outcome claim top_k = [])
    ∧ (cached = none → outcome = SearchOutcome.requestError →
      gfc_cross_reference_claim hasApiKey cached outcome claim top_k = [])
    ∧ pf_cross_reference_claim [] claim top_k = [] := by
  refine ⟨?_, ?_, ?_⟩
  · intro h
    subst h
    simp [gfc_cross_reference_claim]
  · intro hc ho
    subst hc
    subst ho
    cases hasApiKey <;> simp [gfc_cross_reference_claim, gfc_search]
  · simp [pf_cross_reference_claim, sortDescBySim]

/-- Witness for C6: no key, and a network failure on a cache miss. -/
theorem c6_unreachable_or_unconfigured_empty_witness :
    gfc_cross_reference_claim false none SearchOutcome.requestError (pys "x") 5 = []
    ∧ gfc_cross_reference_claim true none SearchOutcome.requestError (pys "x") 5 = [] :=
  ⟨(c6_unreachable_or_unconfigured_empty false none SearchOutcome.requestError (pys "x") 5).1 rfl,
   (c6_unreachable_or_unconfigured_empty true none SearchOutcome.requestError (pys "x") 5).2.1 rfl rfl⟩

/-- C7: a `get` performed more than the TTL after the stored creation
timestamp of the entry is a miss and physically deletes the entry; no other key is touched
by `get` or by `set` (lazy expiry on access, no background sweep); the default
TTL is 168 hours, i.e. 7 days. -/
theorem c7_ttl_lazy_expiry (ttl : ℚ) (store : CacheStore) (now : ℚ)
    (claim : PyStr) (entry : CacheEntry)
    (hfound : store (cache_key claim) = some entry)
    (hexp : ttl < now - entry.timestamp) :
    (cache_get ttl store now claim).1 = none
    ∧ (cache_get ttl store now claim).2 (cache_key claim) = none
    ∧ (∀ k, k ≠ cache_key claim → (cache_get ttl store now claim).2 k = store k)
    ∧ (∀ now2 claim2 results k, k ≠ cache_key claim2 →
        cache_set store now2 claim2 results k = store k)
    ∧ defaultTtlHours = 7 * 24 := by
  refine ⟨?_, ?_, ?_, ?_, by norm_num [defaultTtlHours]⟩
  · simp [cache_get, hfound, hexp]
  · simp [cache_get, hfound, hexp]
  · intro k hk
    simp [cache_get, hfound, hexp, hk]
  · intro now2 claim2 results k hk
    simp [cache_set, hk]

/-- Witness for C7: an entry written at hour 0 is expired and deleted by a
`get` at hour 200 under the default 168-hour TTL. -/
theorem c7_ttl_lazy_expiry_witness :
    (cache_get defaultTtlHours (cache_set (fun _ => none) 0 (pys "Claim") []) 200 (pys "Claim")).1
      = none
    ∧ (cache_get defaultTtlHours (cache_set (fun _ => none) 0 (pys "Claim") []) 200
        (pys "Claim")).2 (cache_key (pys "Claim")) = none := by
  have h := c7_ttl_lazy_expiry defaultTtlHours
    (cache_set (fun _ => none) 0 (pys "Claim") []) 200 (pys "Claim")
    { timestamp := 0, claim := pys "Claim", results := [] }
    (by simp [cache_set]) (by norm_num [defaultTtlHours])
  exact ⟨h.1, h.2.1⟩

/-- C8: a `get` performed immediately after `set` (with a non-negative TTL)
returns the stored results, and the storage key is a digest of the lower-cased
claim text, so a lookup differing only in casing hits the same entry. -/
theorem c8_cache_roundtrip_casing (ttl : ℚ) (store : CacheStore) (now : ℚ)
    (claim claim2 : PyStr) (results : List FactCheckResult)
    (httl : 0 ≤ ttl) (hcase : pyLower claim2 = pyLower claim) :
    (cache_get ttl (cache_set store now claim results) now claim2).1 = some results
    ∧ cache_key claim2 = cache_key claim := by
  have hkey : cache_key claim2 = cache_key claim := by
    simp [cache_key, hcase]
  refine ⟨?_, hkey⟩
  have hnotlt : ¬ ttl < (0 : ℚ) := not_lt.mpr httl
  simp [cache_get, cache_set, hkey, hnotlt]

/-- Witness for C8: a `set` under "Claim X" followed by a `get` under
"CLAIM x" at the same instant returns the stored results. -/
theorem c8_cache_roundtrip_casing_witness :
    (cache_get defaultTtlHours
        (cache_set (fun _ => none) 0 (pys "Claim X") []) 0 (pys "CLAIM x")).1 = some []
    ∧ cache_key (pys "CLAIM x") = cache_key (pys "Claim X") :=
  c8_cache_roundtrip_casing defaultTtlHours (fun _ => none) 0 (pys "Claim X")
    (pys "CLAIM x") [] (by norm_num [defaultTtlHours]) (by decide)

/-- C9: the stance classifier maps a normalized truth score to "supports" when
it is at least `0.7`, to "refutes" when it is at most `0.3`, and to "mixed"
otherwise, with both boundaries inclusive; the inline PolitiFact
stance branch behaves identically on the evidence it builds. -/
theorem c9_stance_thresholds (t : ℚ) (r : PFResult) (src claim : PyStr) :
    ((0.7 : ℚ) ≤ t → score_to_stance t = pys "supports")
    ∧ (t ≤ (0.3 : ℚ) → score_to_stance t = pys "refutes")
    ∧ ((0.3 : ℚ) < t → t < (0.7 : ℚ) → score_to_stance t = pys "mixed")
    ∧ score_to_stance 0.7 = pys "supports"
    ∧ score_to_stance 0.3 = pys "refutes"
    ∧ ((0.7 : ℚ) ≤ r.truth_meter_score →
        (pf_convert_to_evidence_format r src claim).stance = pys "supports")
    ∧ (r.truth_meter_score ≤ (0.3 : ℚ) →
        (pf_convert_to_evidence_format r src claim).stance = pys "refutes")
    ∧ ((0.3 : ℚ) < r.truth_meter_score → r.truth_meter_score < (0.7 : ℚ) →
        (pf_convert_to_evidence_format r src claim).stance = pys "mixed") := by
  refine ⟨?_, ?_, ?_, ?_, ?_, ?_, ?_, ?_⟩
  · intro h
    simp [score_to_stance, h]
  · intro h
    have h7 : ¬ (0.7 : ℚ) ≤ t := by linarith
    simp [score_to_stance, h, h7]
  · intro h3 h7
    have h7' : ¬ (0.7 : ℚ) ≤ t := not_le.mpr h7
    have h3' : ¬ t ≤ (0.3 : ℚ) := not_le.mpr h3
    simp [score_to_stance, h7', h3']
  · norm_num [score_to_stance]
  · norm_num [score_to_stance]
  · intro h
    simp [pf_convert_to_evidence_format, h]
  · intro h
    have h7 : ¬ (0.7 : ℚ) ≤ r.truth_meter_score := by linarith
    simp [pf_convert_to_evidence_format, h, h7]
  · intro h3 h7
    have h7' : ¬ (0.7 : ℚ) ≤ r.truth_meter_score := not_le.mpr h7
    have h3' : ¬ r.truth_meter_score ≤ (0.3 : ℚ) := not_le.mpr h3
    simp [pf_convert_to_evidence_format, h7', h3']

/-- Witness for C9 at the boundary scores `0.7`, `0.3` and at `0.5`. -/
theorem c9_stance_thresholds_witness :
    score_to_stance 0.7 = pys "supports"
    ∧ score_to_stance 0.3 = pys "refutes"
    ∧ score_to_stance 0.5 = pys "mixed"
    ∧ (pf_convert_to_evidence_format
        { statement := [], truth_meter := pys "pants-fire", truth_meter_score := 0
        , article_url := [], speaker := [], source_url := [], snippet := []
        , publish_date := [] } (pys "PolitiFact") (pys "c")).stance = pys "refutes" := by
  refine ⟨?_, ?_, ?_, ?_⟩
  · exact (c9_stance_thresholds 0.7
      { statement := [], truth_meter := [], truth_meter_score := 0, article_url := []
      , speaker := [], source_url := [], snippet := [], publish_date := [] }
      [] []).1 (by norm_num)
  · exact (c9_stance_thresholds 0.3
      { statement := [], truth_meter := [], truth_meter_score := 0, article_url := []
      , speaker := [], source_url := [], snippet := [], publish_date := [] }
      [] []).2.1 (by norm_num)
  · exact (c9_stance_thresholds 0.5
      { statement := [], truth_meter := [], truth_meter_score := 0, article_url := []
      , speaker := [], source_url := [], snippet := [], publish_date := [] }
      [] []).2.2.1 (by norm_num) (by norm_num)
  · exact (c9_stance_thresholds 0
      { statement := [], truth_meter := pys "pants-fire", truth_meter_score := 0
      , article_url := [], speaker := [], source_url := [], snippet := []
      , publish_date := [] } (pys "PolitiFact") (pys "c")).2.2.2.2.2.2.1 (by norm_num)

/-- C3 (amended): every evidence item returned by the Google adapter via
`cross_reference_claim` has similarity at least `0.15` — candidates below the
floor are dropped before ranking and truncation. -/
theorem c3_google_similarity_floor (hasApiKey : Bool)
    (cached : Option (List FactCheckResult)) (outcome : SearchOutcome)
    (claim : PyStr) (top_k : ℕ) (ev : Evidence)
    (hmem : ev ∈ gfc_cross_reference_claim hasApiKey cached outcome claim top_k) :
    (0.15 : ℚ) ≤ ev.similarity := by
  unfold gfc_cross_reference_claim at hmem
  cases hasApiKey with
  | false => simp at hmem
  | true =>
    simp only [Bool.not_true, Bool.false_eq_true, if_false] at hmem
    split at hmem
    · simp at hmem
    · rcases List.mem_filterMap.mp
        (mem_sortDescBySim.mp (List.mem_of_mem_take hmem)) with ⟨r, _, heq⟩
      unfold gfc_evidence_of_result at heq
      by_cases hlt : compute_similarity claim r.statement < 0.15
      · simp only [hlt, if_true] at heq
        cases heq
      · simp only [hlt, if_false, Option.some.injEq] at heq
        rcases heq with rfl
        exact not_lt.mp hlt

/-- Counterexample to C3 as stated: the PolitiFact adapter entry point
`cross_reference_claim` — the one `claims_client.py` imports — applies no
similarity floor, and here returns an evidence item of similarity `0.0`,
below `0.15`. -/
theorem c3_politifact_no_floor_counterexample :
    (pf_cross_reference_claim [pfBelowFloorResult] (pys "aaa") 5).map
        (fun e => e.similarity) = [0]
    ∧ ¬ (∀ e ∈ pf_cross_reference_claim [pfBelowFloorResult] (pys "aaa") 5,
          (0.15 : ℚ) ≤ e.similarity) := by
  have hne : ¬ ((pySplitWs (pyLower (pys "aaa"))).toFinset = ∅
      ∨ (pySplitWs (pyLower (pys "zzz"))).toFinset = ∅) := by decide
  have hi : ((pySplitWs (pyLower (pys "aaa"))).toFinset
      ∩ (pySplitWs (pyLower (pys "zzz"))).toFinset).card = 0 := by decide
  have hu : ((pySplitWs (pyLower (pys "aaa"))).toFinset
      ∪ (pySplitWs (pyLower (pys "zzz"))).toFinset).card = 2 := by decide
  have hsim : pf_compute_similarity (pys "aaa") (pys "zzz") = 0 := by
    simp only [pf_compute_similarity, hne, if_false, hi, hu]
    norm_num
  have h1 : (pf_cross_reference_claim [pfBelowFloorResult] (pys "aaa") 5).map
      (fun e => e.similarity) = [0] := by
    simp [pf_cross_reference_claim, sortDescBySim, insertDescBySim,
      pf_convert_to_evidence_format, pfBelowFloorResult, hsim]
  refine ⟨h1, ?_⟩
  intro hall
  have hmem : (0 : ℚ) ∈ (pf_cross_reference_claim [pfBelowFloorResult] (pys "aaa") 5).map
      (fun e => e.similarity) := by
    rw [h1]
    exact List.mem_singleton_self 0
  rcases List.mem_map.mp hmem with ⟨e, he, hsim0⟩
  have := hall e he
  rw [hsim0] at this
  norm_num at this

/-- Witness for C3 (amended): a concrete run of the Google adapter returning
one evidence item, whose similarity is indeed at least `0.15`. -/
theorem c3_google_similarity_floor_witness :
    (0.15 : ℚ) ≤ c3WitnessEvidence.similarity := by
  have hstrip : pyStrip (pyLower c3WitnessClaim) = c3WitnessClaim := by decide
  have hj : jaccardWords c3WitnessClaim c3WitnessClaim = 1 := by
    have hi : ((wordSet c3WitnessClaim) ∩ (wordSet c3WitnessClaim)).card = 1 := by decide
    have hu : ((wordSet c3WitnessClaim) ∪ (wordSet c3WitnessClaim)).card = 1 := by decide
    simp only [jaccardWords, hi, hu]
    norm_num
  have hf : bigram_fuzzy c3WitnessClaim c3WitnessClaim = 1 := by
    have hne : ¬ ((bigramSet c3WitnessClaim) = ∅ ∨ (bigramSet c3WitnessClaim) = ∅) := by decide
    have hi : ((bigramSet c3WitnessClaim) ∩ (bigramSet c3WitnessClaim)).card = 1 := by decide
    have hu : ((bigramSet c3WitnessClaim) ∪ (bigramSet c3WitnessClaim)).card = 1 := by decide
    simp only [bigram_fuzzy, hne, if_false, hi, hu]
    norm_num
  have hb : substringBonus c3WitnessClaim c3WitnessClaim = 0.2 := by
    have hc : (20 < (pyMinByLen c3WitnessClaim c3WitnessClaim).length
        ∧ pyContains (pyMaxByLen c3WitnessClaim c3WitnessClaim)
          (pyMinByLen c3WitnessClaim c3WitnessClaim)) := by decide
    simp [substringBonus, hc]
  have hnn : ¬ (c3WitnessClaim = [] ∨ c3WitnessClaim = []) := by decide
  have hsim : compute_similarity c3WitnessClaim c3WitnessClaim = 1 := by
    simp only [compute_similarity, hnn, if_false, hstrip, hj, hf, hb]
    norm_num
  have hsim2 : compute_similarity c3WitnessClaim (pys "aaaaaaaaaaaaaaaaaaaaa") = 1 := hsim
  have hev : gfc_evidence_of_result c3WitnessClaim c3WitnessResult
      = some c3WitnessEvidence := by
    simp only [gfc_evidence_of_result, c3WitnessResult, c3WitnessEvidence, hsim2]
    norm_num [score_to_stance]
  have hstep : gfc_cross_reference_claim true (some [c3WitnessResult])
      SearchOutcome.requestError c3WitnessClaim 5 = [c3WitnessEvidence] := by
    simp [gfc_cross_reference_claim, gfc_search, hev, sortDescBySim, insertDescBySim]
  exact c3_google_similarity_floor true (some [c3WitnessResult]) SearchOutcome.requestError
    c3WitnessClaim 5 _ (by rw [hstep]; exact List.mem_singleton_self _)

/-- Every list of characters starts with itself. -/
theorem isPrefixOf_self (l : List Char) : l.isPrefixOf l = true := by
  induction l with
  | nil => rfl
  | cons a t ih => simp [List.isPrefixOf, ih]

/-- Python `s in s` is always true. -/
theorem pyContains_self (l : PyStr) : pyContains l l = true := by
  cases l with
  | nil => rfl
  | cons a t => simp [pyContains, isPrefixOf_self]

/-- A starting segment is no longer than the whole. -/
theorem length_le_of_isPrefixOf :
    ∀ {l1 l2 : List Char}, l1.isPrefixOf l2 = true → l1.length ≤ l2.length := by
  intro l1
  induction l1 with
  | nil => intro l2 _; simp
  | cons a t ih =>
    intro l2 h
    cases l2 with
    | nil => simp [List.isPrefixOf] at h
    | cons b t2 =>
      simp only [List.isPrefixOf, Bool.and_eq_true] at h
      simpa using ih h.2

/-- A starting segment of equal length is the whole list. -/
theorem eq_of_isPrefixOf_of_length :
    ∀ {l1 l2 : List Char}, l1.isPrefixOf l2 = true → l1.length = l2.length → l1 = l2 := by
  intro l1
  induction l1 with
  | nil =>
    intro l2 _ hl
    exact (List.length_eq_zero.mp hl.symm).symm
  | cons a t ih =>
    intro l2 h hl
    cases l2 with
    | nil => simp [List.isPrefixOf] at h
    | cons b t2 =>
      simp only [List.isPrefixOf, Bool.and_eq_true, beq_iff_eq] at h
      simp only [List.length_cons, Nat.succ.injEq] at hl
      rw [h.1, ih h.2 hl]

/-- A contained substring is no longer than its container. -/
theorem length_le_of_pyContains :
    ∀ {hay needle : PyStr}, pyContains hay needle = true → needle.length ≤ hay.length := by
  intro hay
  induction hay with
  | nil =>
    intro needle h
    simp only [pyContains, List.isEmpty_iff] at h
    simp [h]
  | cons c t ih =>
    intro needle h
    simp only [pyContains, Bool.or_eq_true] at h
    rcases h with h | h
    · exact length_le_of_isPrefixOf h
    · exact le_trans (ih h) (by simp)

/-- A contained substring of equal length is the container itself. -/
theorem eq_of_pyContains_of_length {hay needle : PyStr}
    (h : pyContains hay needle = true) (hl : needle.length = hay.length) : needle = hay := by
  cases hay with
  | nil =>
    simp only [pyContains, List.isEmpty_iff] at h
    exact h
  | cons c t =>
    simp only [pyContains, Bool.or_eq_true] at h
    rcases h with h | h
    · exact eq_of_isPrefixOf_of_length h hl
    · have := length_le_of_pyContains h
      rw [hl] at this
      simp at this

/-- C10: when the two normalized texts are distinct but have equal length
greater than 20, neither is a substring of the other, yet the `0.2` substring
bonus is applied — `min(t1, t2, key=len)` and `max(t1, t2, key=len)` both
return the first argument on a length tie, so the containment test compares
the first normalized string with itself. -/
theorem c10_equal_length_bonus (s1 s2 : PyStr)
    (hlen : (pyStrip (pyLower s1)).length = (pyStrip (pyLower s2)).length)
    (hgt : 20 < (pyStrip (pyLower s1)).length)
    (hne : pyStrip (pyLower s1) ≠ pyStrip (pyLower s2))
    (h1 : s1 ≠ []) (h2 : s2 ≠ []) :
    substringBonus (pyStrip (pyLower s1)) (pyStrip (pyLower s2)) = 0.2
    ∧ pyContains (pyStrip (pyLower s2)) (pyStrip (pyLower s1)) = false
    ∧ pyContains (pyStrip (pyLower s1)) (pyStrip (pyLower s2)) = false
    ∧ compute_similarity s1 s2
        = min (0.6 * jaccardWords (pyStrip (pyLower s1)) (pyStrip (pyLower s2))
            + 0.3 * bigram_fuzzy (pyStrip (pyLower s1)) (pyStrip (pyLower s2)) + 0.2) 1 := by
  have hm1 : pyMinByLen (pyStrip (pyLower s1)) (pyStrip (pyLower s2)) = pyStrip (pyLower s1) := by
    simp [pyMinByLen, ← hlen]
  have hm2 : pyMaxByLen (pyStrip (pyLower s1)) (pyStrip (pyLower s2)) = pyStrip (pyLower s1) := by
    simp [pyMaxByLen, ← hlen]
  have hb : substringBonus (pyStrip (pyLower s1)) (pyStrip (pyLower s2)) = 0.2 := by
    simp [substringBonus, hm1, hm2, hgt, pyContains_self]
  have hc21 : pyContains (pyStrip (pyLower s2)) (pyStrip (pyLower s1)) = false := by
    rcases Bool.eq_false_or_eq_true (pyContains (pyStrip (pyLower s2)) (pyStrip (pyLower s1)))
      with h | h
    · exact absurd (eq_of_pyContains_of_length h hlen) hne
    · exact h
  have hc12 : pyContains (pyStrip (pyLower s1)) (pyStrip (pyLower s2)) = false := by
    rcases Bool.eq_false_or_eq_true (pyContains (pyStrip (pyLower s1)) (pyStrip (pyLower s2)))
      with h | h
    · exact absurd (eq_of_pyContains_of_length h hlen.symm) (Ne.symm hne)
    · exact h
  have hnn : ¬ (s1 = [] ∨ s2 = []) := by
    intro h
    rcases h with h | h
    · exact h1 h
    · exact h2 h
  refine ⟨hb, hc21, hc12, ?_⟩
  simp only [compute_similarity, hnn, if_false, hb]

/-- Witness for C10 at two distinct 21-character single-word texts. -/
theorem c10_equal_length_bonus_witness :
    substringBonus (pyStrip (pyLower (pys "aaaaaaaaaaaaaaaaaaaab")))
        (pyStrip (pyLower (pys "baaaaaaaaaaaaaaaaaaaa"))) = 0.2
    ∧ pyContains (pyStrip (pyLower (pys "baaaaaaaaaaaaaaaaaaaa")))
        (pyStrip (pyLower (pys "aaaaaaaaaaaaaaaaaaaab"))) = false := by
  have h := c10_equal_length_bonus (pys "aaaaaaaaaaaaaaaaaaaab") (pys "baaaaaaaaaaaaaaaaaaaa")
    (by decide) (by decide) (by decide) (by decide) (by decide)
  exact ⟨h.1, h.2.1⟩

/-- Association-list lookup agrees with the first-exact-match recursion of the spec. -/
theorem lookup_eq_exact_match (l : List (PyStr × ℚ)) (r : PyStr) :
    l.lookup r = exact_match_spec l r := by
  induction l with
  | nil => rfl
  | cons kv rest ih =>
    rcases kv with ⟨k, v⟩
    by_cases h : r = k
    · simp [List.lookup, exact_match_spec, h]
    · have hb : (r == k) = false := beq_eq_false_iff_ne.mpr h
      simp [List.lookup, exact_match_spec, h, hb, ih]

/-- Running `find?` over the table agrees with the first-substring-match recursion of the spec. -/
theorem find?_map_eq_substring_match (l : List (PyStr × ℚ)) (r : PyStr) :
    (l.find? (fun kv => pyContains r kv.1)).map Prod.snd = substring_match_spec l r := by
  induction l with
  | nil => rfl
  | cons kv rest ih =>
    rcases kv with ⟨k, v⟩
    by_cases h : pyContains r k = true
    · simp [List.find?, substring_match_spec, h]
    · simp [List.find?, substring_match_spec, h, ih]

/-- Counterexample to C4 as stated: the table maps "legend" to `0.05`, not
`0.0`, and the hyphenated "pants-on-fire" matches no table key at all (neither
exactly nor as a contained substring), so it normalizes to the default `0.5`. -/
theorem c4_rating_table_counterexample :
    rating_to_score (pys "legend") = 0.05
    ∧ rating_to_score (pys "legend") ≠ 0
    ∧ rating_to_score (pys "pants-on-fire") = 0.5
    ∧ rating_to_score (pys "pants-on-fire") ≠ 0 := by
  have h1 : rating_to_score (pys "legend") = 0.05 := rfl
  have h2 : rating_to_score (pys "pants-on-fire") = 0.5 := rfl
  refine ⟨h1, ?_, h2, ?_⟩
  · rw [h1]
    norm_num
  · rw [h2]
    norm_num

/-- C4 (amended): the rating normalizer lower-cases and trims its input,
returns the canonical table value on exact match (with `legend = 0.05` and
the keys "pants on fire" and "pants-fire" both at `0.0`), falls back to the
first table entry in definition order whose key occurs as a substring, and
returns `0.5` when nothing matches; in particular
`normalize("True") == normalize("TRUE ")` and `normalize("pants-fire") == 0`. -/
theorem c4_rating_normalizer_amended (rating : PyStr) :
    rating_to_score rating = normalize_rating_spec rating
    ∧ rating_to_score (pys "True") = rating_to_score (pys "TRUE ")
    ∧ rating_to_score (pys "pants-fire") = 0
    ∧ rating_to_score (pys "true") = 0.95
    ∧ rating_to_score (pys "mostly true") = 0.75
    ∧ rating_to_score (pys "half true") = 0.5
    ∧ rating_to_score (pys "mixture") = 0.5
    ∧ rating_to_score (pys "unproven") = 0.4
    ∧ rating_to_score (pys "undetermined") = 0.4
    ∧ rating_to_score (pys "mostly false") = 0.25
    ∧ rating_to_score (pys "false") = 0.05
    ∧ rating_to_score (pys "pants on fire") = 0
    ∧ rating_to_score (pys "legend") = 0.05
    ∧ rating_to_score (pys "outdated") = 0.3
    ∧ rating_to_score (pys "misleading") = 0.2
    ∧ rating_to_score (pys "some novel verdict") = 0.5 := by
  refine ⟨?_, rfl, ?_, rfl, rfl, rfl, rfl, rfl, rfl, rfl, rfl, ?_, rfl, rfl, rfl, rfl⟩
  · have h1 := lookup_eq_exact_match rating_map (pyStrip (pyLower rating))
    have h2 := find?_map_eq_substring_match rating_map (pyStrip (pyLower rating))
    simp only [rating_to_score, normalize_rating_spec,
      show rating_table_spec = rating_map from rfl, ← h1, ← h2]
    rcases hl : rating_map.lookup (pyStrip (pyLower rating)) with _ | v
    · rcases hf : rating_map.find? (fun kv => pyContains (pyStrip (pyLower rating)) kv.1)
        with _ | kv
      · simp [hf]
      · simp [hf]
    · simp
  · rw [show rating_to_score (pys "pants-fire") = (0.0 : ℚ) from rfl]
    norm_num
  · rw [show rating_to_score (pys "pants on fire") = (0.0 : ℚ) from rfl]
    norm_num

/-- The bonus term of the source equals the bonus term of the amended spec. -/
theorem substringBonus_eq_amended (t1 t2 : PyStr) :
    substringBonus t1 t2 = amended_bonus_spec t1 t2 := by
  rcases lt_trichotomy t1.length t2.length with h | h | h
  · have hm1 : pyMinByLen t1 t2 = t1 := by
      simp [pyMinByLen, not_lt.mpr h.le]
    have hm2 : pyMaxByLen t1 t2 = t2 := by
      simp [pyMaxByLen, h]
    simp [substringBonus, amended_bonus_spec, hm1, hm2, h, h.ne]
  · have hm1 : pyMinByLen t1 t2 = t1 := by
      simp [pyMinByLen, ← h]
    have hm2 : pyMaxByLen t1 t2 = t1 := by
      simp [pyMaxByLen, ← h]
    simp [substringBonus, amended_bonus_spec, hm1, hm2, h, pyContains_self]
  · have hm1 : pyMinByLen t1 t2 = t2 := by
      simp [pyMinByLen, h]
    have hm2 : pyMaxByLen t1 t2 = t1 := by
      simp [pyMaxByLen, not_lt.mpr h.le]
    simp [substringBonus, amended_bonus_spec, hm1, hm2, h.ne.symm, not_lt.mpr h.le]

/-- The word-level Jaccard term is non-negative. -/
theorem jaccardWords_nonneg (t1 t2 : PyStr) : 0 ≤ jaccardWords t1 t2 := by
  simp only [jaccardWords]
  split
  · positivity
  · exact le_refl 0

/-- The bigram term is non-negative. -/
theorem bigram_fuzzy_nonneg (t1 t2 : PyStr) : 0 ≤ bigram_fuzzy t1 t2 := by
  simp only [bigram_fuzzy]
  split
  · exact le_refl 0
  · split
    · positivity
    · exact le_refl 0

/-- The bonus term is non-negative. -/
theorem substringBonus_nonneg (t1 t2 : PyStr) : 0 ≤ substringBonus t1 t2 := by
  simp only [substringBonus]
  split
  · norm_num
  · exact le_refl 0

/-- Counterexample to C5 as stated: two distinct 25-character words, neither
contained in the other, where the source still adds the `0.2` bonus (length
tie), so the computed similarity is `0.2` while the claimed formula gives `0`. -/
theorem c5_substring_bonus_counterexample :
    compute_similarity (pys "aaaaaaaaaaaaaaaaaaaaaaaaa") (pys "bbbbbbbbbbbbbbbbbbbbbbbbb") = 0.2
    ∧ claimed_similarity_spec (pys "aaaaaaaaaaaaaaaaaaaaaaaaa")
        (pys "bbbbbbbbbbbbbbbbbbbbbbbbb") = 0
    ∧ compute_similarity (pys "aaaaaaaaaaaaaaaaaaaaaaaaa") (pys "bbbbbbbbbbbbbbbbbbbbbbbbb")
        ≠ claimed_similarity_spec (pys "aaaaaaaaaaaaaaaaaaaaaaaaa")
          (pys "bbbbbbbbbbbbbbbbbbbbbbbbb") := by
  have hstripA : pyStrip (pyLower (pys "aaaaaaaaaaaaaaaaaaaaaaaaa"))
      = pys "aaaaaaaaaaaaaaaaaaaaaaaaa" := by decide
  have hstripB : pyStrip (pyLower (pys "bbbbbbbbbbbbbbbbbbbbbbbbb"))
      = pys "bbbbbbbbbbbbbbbbbbbbbbbbb" := by decide
  have hnn : ¬ ((pys "aaaaaaaaaaaaaaaaaaaaaaaaa") = [] ∨ (pys "bbbbbbbbbbbbbbbbbbbbbbbbb") = []) := by
    decide
  have hj : jaccardWords (pys "aaaaaaaaaaaaaaaaaaaaaaaaa") (pys "bbbbbbbbbbbbbbbbbbbbbbbbb") = 0 := by
    have hi : ((wordSet (pys "aaaaaaaaaaaaaaaaaaaaaaaaa"))
        ∩ (wordSet (pys "bbbbbbbbbbbbbbbbbbbbbbbbb"))).card = 0 := by decide
    have hu : ((wordSet (pys "aaaaaaaaaaaaaaaaaaaaaaaaa"))
        ∪ (wordSet (pys "bbbbbbbbbbbbbbbbbbbbbbbbb"))).card = 2 := by decide
    simp only [jaccardWords, hi, hu]
    norm_num
  have hf : bigram_fuzzy (pys "aaaaaaaaaaaaaaaaaaaaaaaaa") (pys "bbbbbbbbbbbbbbbbbbbbbbbbb") = 0 := by
    have hne : ¬ ((bigramSet (pys "aaaaaaaaaaaaaaaaaaaaaaaaa")) = ∅
        ∨ (bigramSet (pys "bbbbbbbbbbbbbbbbbbbbbbbbb")) = ∅) := by decide
    have hi : ((bigramSet (pys "aaaaaaaaaaaaaaaaaaaaaaaaa"))
        ∩ (bigramSet (pys "bbbbbbbbbbbbbbbbbbbbbbbbb"))).card = 0 := by decide
    have hu : ((bigramSet (pys "aaaaaaaaaaaaaaaaaaaaaaaaa"))
        ∪ (bigramSet (pys "bbbbbbbbbbbbbbbbbbbbbbbbb"))).card = 2 := by decide
    simp only [bigram_fuzzy, hne, if_false, hi, hu]
    norm_num
  have hb : substringBonus (pys "aaaaaaaaaaaaaaaaaaaaaaaaa") (pys "bbbbbbbbbbbbbbbbbbbbbbbbb") = 0.2 := by
    have hc : (20 < (pyMinByLen (pys "aaaaaaaaaaaaaaaaaaaaaaaaa") (pys "bbbbbbbbbbbbbbbbbbbbbbbbb")).length
        ∧ pyContains (pyMaxByLen (pys "aaaaaaaaaaaaaaaaaaaaaaaaa") (pys "bbbbbbbbbbbbbbbbbbbbbbbbb"))
          (pyMinByLen (pys "aaaaaaaaaaaaaaaaaaaaaaaaa") (pys "bbbbbbbbbbbbbbbbbbbbbbbbb"))) := by decide
    simp [substringBonus, hc]
  have hcb : claimed_bonus_spec (pys "aaaaaaaaaaaaaaaaaaaaaaaaa") (pys "bbbbbbbbbbbbbbbbbbbbbbbbb") = 0 := by
    have hcond : ¬ (20 < (pys "aaaaaaaaaaaaaaaaaaaaaaaaa").length
        ∧ pyContains (pys "bbbbbbbbbbbbbbbbbbbbbbbbb") (pys "aaaaaaaaaaaaaaaaaaaaaaaaa")) := by decide
    simp only [claimed_bonus_spec]
    rw [if_pos (by decide), if_neg hcond]
  have hA : compute_similarity (pys "aaaaaaaaaaaaaaaaaaaaaaaaa") (pys "bbbbbbbbbbbbbbbbbbbbbbbbb") = 0.2 := by
    simp only [compute_similarity, hnn, if_false, hstripA, hstripB, hj, hf, hb]
    rw [min_eq_left (by norm_num)]
    norm_num
  have hB : claimed_similarity_spec (pys "aaaaaaaaaaaaaaaaaaaaaaaaa") (pys "bbbbbbbbbbbbbbbbbbbbbbbbb") = 0 := by
    simp only [claimed_similarity_spec, hnn, if_false, hstripA, hstripB, hj, hf, hcb]
    rw [min_eq_left (by norm_num)]
    norm_num
  refine ⟨hA, hB, ?_⟩
  rw [hA, hB]
  norm_num

/-- C5 (amended): the similarity scorer returns `0` when either string is
empty, otherwise `min(0.6*J_w + 0.3*J_b + bonus, 1)` where the bonus follows
the tie-breaking of the source (equal normalized lengths greater than 20 always
earn the bonus; otherwise the shorter string must exceed 20 characters and be
contained in the longer); the result always lies in `[0, 1]`. -/
theorem c5_similarity_formula_amended (text1 text2 : PyStr) :
    compute_similarity text1 text2 = amended_similarity_spec text1 text2
    ∧ 0 ≤ compute_similarity text1 text2
    ∧ compute_similarity text1 text2 ≤ 1
    ∧ ((text1 = [] ∨ text2 = []) → compute_similarity text1 text2 = 0) := by
  refine ⟨?_, ?_, ?_, ?_⟩
  · simp only [compute_similarity, amended_similarity_spec, substringBonus_eq_amended]
  · simp only [compute_similarity]
    split
    · exact le_refl 0
    · refine le_min ?_ (by norm_num)
      have h1 := jaccardWords_nonneg (pyStrip (pyLower text1)) (pyStrip (pyLower text2))
      have h2 := bigram_fuzzy_nonneg (pyStrip (pyLower text1)) (pyStrip (pyLower text2))
      have h3 := substringBonus_nonneg (pyStrip (pyLower text1)) (pyStrip (pyLower text2))
      nlinarith
  · simp only [compute_similarity]
    split
    · norm_num
    · exact min_le_right _ _
  · intro h
    simp [compute_similarity, h]

/-- Witness for C5 (amended): the empty-string case, and one concrete pair on
which the source formula and the amended formula agree. -/
theorem c5_similarity_formula_amended_witness :
    compute_similarity (pys "") (pys "x") = 0
    ∧ compute_similarity (pys "abc") (pys "abd")
        = amended_similarity_spec (pys "abc") (pys "abd") :=
  ⟨(c5_similarity_formula_amended (pys "") (pys "x")).2.2.2 (Or.inl rfl),
   (c5_similarity_formula_amended (pys "abc") (pys "abd")).1⟩
